import Mathlib

/- Shallow embedding of the wareflow-ems alert-settings subsystem
   (src/employee/alert_settings.py) and the undo/redo manager
   (src/utils/undo_manager.py).

   Python ints are unbounded, so days thresholds are modelled as Int.
   Fallible Python code is modelled with Except over an explicit error type.
   The CPython object graph matters for the class-level DEFAULT_SETTINGS
   dictionary: `settings[category] = self.DEFAULT_SETTINGS[category]` stores a
   reference to the shared class-level object, while `deepcopy` produces an
   independent copy.  This is modelled with a two-level store: `World` holds
   the current field values of the four class-level default objects, and a
   manager entry is either `Entry.shared` (an alias of the class-level object)
   or `Entry.owned v` (an independent copy holding value `v`). -/

/-- Python-level errors raised on the settings-load path.  `illTyped` is a
model-level marker flagging JSON leaf values whose type differs from the
declared dataclass field type; CPython would store such a value unchecked, so
no theorem below depends on this branch. -/
inductive PyErr where
  | jsonDecodeError
  | keyError
  | typeError
  | attributeError
  | illTyped
deriving DecidableEq, Repr

/-- Mirrors the AlertLevel dataclass. -/
structure AlertLevel where
  days : Int
  color : String
  label : String
  notification : Bool
  email : Bool
deriving DecidableEq, Repr

/-- Mirrors the CategoryAlertSettings dataclass. -/
structure CategoryAlertSettings where
  enabled : Bool
  info : AlertLevel
  warning : AlertLevel
  alert : AlertLevel
  critical : Option AlertLevel
deriving DecidableEq, Repr

/-- The four fixed document categories (VALID_CATEGORIES). -/
inductive Category where
  | caces
  | medical
  | training
  | contracts
deriving DecidableEq, Repr

def catName : Category → String
  | .caces => "caces"
  | .medical => "medical"
  | .training => "training"
  | .contracts => "contracts"

/-- Membership of a Python string in VALID_CATEGORIES (equivalently, in the
keys of `self.settings`, which in every reachable state are exactly the four
valid categories). -/
def parseCategory (s : String) : Option Category :=
  if s = "caces" then some .caces
  else if s = "medical" then some .medical
  else if s = "training" then some .training
  else if s = "contracts" then some .contracts
  else none

/-- DEFAULT_SETTINGS entry for caces. -/
def defaultCaces : CategoryAlertSettings :=
  { enabled := true
    info := ⟨90, "#FFFF00", "Info", false, false⟩
    warning := ⟨60, "#FFA500", "Warning", true, false⟩
    alert := ⟨30, "#FF0000", "Alert", true, false⟩
    critical := some ⟨7, "#8B0000", "Critical", true, true⟩ }

/-- DEFAULT_SETTINGS entry for medical. -/
def defaultMedical : CategoryAlertSettings :=
  { enabled := true
    info := ⟨90, "#FFFF00", "Info", false, false⟩
    warning := ⟨60, "#FFA500", "Warning", true, false⟩
    alert := ⟨30, "#FF0000", "Alert", true, false⟩
    critical := some ⟨7, "#8B0000", "Critical", true, false⟩ }

/-- DEFAULT_SETTINGS entry for training. -/
def defaultTraining : CategoryAlertSettings :=
  { enabled := true
    info := ⟨60, "#FFFF00", "Info", false, false⟩
    warning := ⟨30, "#FFA500", "Warning", true, false⟩
    alert := ⟨14, "#FF0000", "Alert", true, false⟩
    critical := some ⟨7, "#8B0000", "Critical", true, false⟩ }

/-- DEFAULT_SETTINGS entry for contracts (no critical tier). -/
def defaultContracts : CategoryAlertSettings :=
  { enabled := true
    info := ⟨90, "#FFFF00", "Info", false, false⟩
    warning := ⟨60, "#FFA500", "Warning", true, false⟩
    alert := ⟨30, "#FF0000", "Alert", true, false⟩
    critical := none }

/-- Current field values of the four class-level DEFAULT_SETTINGS objects. -/
structure World where
  caces : CategoryAlertSettings
  medical : CategoryAlertSettings
  training : CategoryAlertSettings
  contracts : CategoryAlertSettings
deriving DecidableEq, Repr

def World.get (w : World) : Category → CategoryAlertSettings
  | .caces => w.caces
  | .medical => w.medical
  | .training => w.training
  | .contracts => w.contracts

def World.set (w : World) (c : Category) (v : CategoryAlertSettings) : World :=
  match c with
  | .caces => { w with caces := v }
  | .medical => { w with medical := v }
  | .training => { w with training := v }
  | .contracts => { w with contracts := v }

/-- The values DEFAULT_SETTINGS is initialised with at class definition. -/
def defaultWorld : World :=
  ⟨defaultCaces, defaultMedical, defaultTraining, defaultContracts⟩

/-- A settings-dictionary slot: either a reference to the shared class-level
default object for its category, or an independently owned object. -/
inductive Entry where
  | shared
  | owned (v : CategoryAlertSettings)
deriving DecidableEq, Repr

/-- The `self.settings` dictionary; its keys are always exactly the four
valid categories, so it is a record with one slot per category. -/
structure Manager where
  caces : Entry
  medical : Entry
  training : Entry
  contracts : Entry
deriving DecidableEq, Repr

def Manager.get (m : Manager) : Category → Entry
  | .caces => m.caces
  | .medical => m.medical
  | .training => m.training
  | .contracts => m.contracts

def Manager.set (m : Manager) (c : Category) (e : Entry) : Manager :=
  match c with
  | .caces => { m with caces := e }
  | .medical => { m with medical := e }
  | .training => { m with training := e }
  | .contracts => { m with contracts := e }

/-- `deepcopy(self.DEFAULT_SETTINGS)`: every slot becomes an independent copy
of the current value of the class-level object. -/
def deepcopyDefaults (w : World) : Manager :=
  ⟨.owned w.caces, .owned w.medical, .owned w.training, .owned w.contracts⟩

/-- Dereference `self.settings[c]`. -/
def getCat (w : World) (m : Manager) (c : Category) : CategoryAlertSettings :=
  match m.get c with
  | .shared => w.get c
  | .owned v => v

/-- Mutate the object held in `self.settings[c]` in place; if the slot aliases
the class-level default, the write goes through to it. -/
def setCat (w : World) (m : Manager) (c : Category) (v : CategoryAlertSettings) :
    World × Manager :=
  match m.get c with
  | .shared => (w.set c v, m)
  | .owned _ => (w, m.set c (.owned v))

/-- The guard `cat_settings.critical and days_until <= cat_settings.critical.days`
(an AlertLevel instance is always truthy, so truthiness is presence). -/
def criticalApplies (cs : CategoryAlertSettings) (d : Int) : Bool :=
  match cs.critical with
  | some cr => decide (d ≤ cr.days)
  | none => false

/-- AlertSettingsManager.get_alert_level, per-category part (the category has
already been found in `self.settings`). -/
def get_alert_level (cs : CategoryAlertSettings) (d : Int) : Option AlertLevel :=
  if cs.enabled = false then none
  else if criticalApplies cs d then cs.critical
  else if d ≤ cs.alert.days then some cs.alert
  else if d ≤ cs.warning.days then some cs.warning
  else if d ≤ cs.info.days then some cs.info
  else none

/-- AlertSettingsManager.get_alert_level including the category lookup. -/
def manager_get_alert_level (w : World) (m : Manager) (category : String)
    (d : Int) : Option AlertLevel :=
  match parseCategory category with
  | none => none
  | some c => get_alert_level (getCat w m c) d

/-- JSON values as produced by json.load. -/
inductive JValue where
  | null
  | bool (b : Bool)
  | int (n : Int)
  | str (s : String)
  | arr (elems : List JValue)
  | obj (fields : List (String × JValue))

/-- Python truthiness of a JSON-derived value. -/
def pyTruthy : JValue → Bool
  | .null => false
  | .bool b => b
  | .int n => decide (n ≠ 0)
  | .str s => decide (s ≠ "")
  | .arr xs => !xs.isEmpty
  | .obj kvs => !kvs.isEmpty

/-- Python `v[k]` with a string key: dict lookup (KeyError on a missing key),
TypeError on strings, lists and non-subscriptable values. -/
def pySubscript (v : JValue) (k : String) : Except PyErr JValue :=
  match v with
  | .obj kvs =>
    match List.lookup k kvs with
    | some x => .ok x
    | none => .error .keyError
  | _ => .error .typeError

/-- Python `v.get(k, d)`: AttributeError unless v is a dict. -/
def pyGetDefault (v : JValue) (k : String) (d : JValue) : Except PyErr JValue :=
  match v with
  | .obj kvs => .ok ((List.lookup k kvs).getD d)
  | _ => .error .attributeError

/-- Python `v.get(k)`: AttributeError unless v is a dict. -/
def pyGetOpt (v : JValue) (k : String) : Except PyErr (Option JValue) :=
  match v with
  | .obj kvs => .ok (List.lookup k kvs)
  | _ => .error .attributeError

/-- Substring test, Python `pat in s` for strings. -/
def strContainsSub (s pat : String) : Bool :=
  if pat = "" then true else decide ((s.splitOn pat).length > 1)

/-- Python `x == k` where k is a string: only equal strings compare equal. -/
def jvalEqStr : JValue → String → Bool
  | .str t, s => decide (t = s)
  | _, _ => false

/-- Python `k in v` with a string k: key membership on dicts, element
membership on lists, substring on strings, TypeError otherwise. -/
def pyContains (k : String) (v : JValue) : Except PyErr Bool :=
  match v with
  | .obj kvs => .ok (List.lookup k kvs).isSome
  | .arr xs => .ok (xs.any (fun x => jvalEqStr x k))
  | .str s => .ok (strContainsSub s k)
  | _ => .error .typeError

/-- Sequencing of Python statements that may raise: the first raised error
propagates. -/
def eBind {α β : Type} (x : Except PyErr α) (f : α → Except PyErr β) :
    Except PyErr β :=
  match x with
  | .error e => .error e
  | .ok a => f a

/-- Whether a computation completed without raising. -/
def isOkE {ε α : Type} : Except ε α → Bool
  | .ok _ => true
  | .error _ => false

/-- Keyword names accepted by `AlertLevel(**data)`. -/
def allowedLevelKey (k : String) : Bool :=
  k == "days" || k == "color" || k == "label" || k == "notification" || k == "email"

/-- Optional bool field of the AlertLevel dataclass: absent means the dataclass
default False; a present non-bool value is flagged as `illTyped` (CPython would
store it unchecked). -/
def readBoolOpt : Option JValue → Option Bool
  | none => some false
  | some (.bool b) => some b
  | some _ => none

/-- AlertLevel.from_dict, i.e. `AlertLevel(**data)`: TypeError unless data is a
mapping whose keys are exactly dataclass fields including the required
days/color/label. -/
def AlertLevel.from_dict (v : JValue) : Except PyErr AlertLevel :=
  match v with
  | .obj kvs =>
    if !(kvs.all fun kv => allowedLevelKey kv.1) then .error .typeError
    else
      match List.lookup "days" kvs, List.lookup "color" kvs, List.lookup "label" kvs with
      | some dv, some cv, some lv =>
        match dv, cv, lv, readBoolOpt (List.lookup "notification" kvs),
              readBoolOpt (List.lookup "email" kvs) with
        | .int d, .str c, .str l, some nb, some eb => .ok ⟨d, c, l, nb, eb⟩
        | _, _, _, _, _ => .error .illTyped
      | _, _, _ => .error .typeError
  | _ => .error .typeError

/-- AlertLevel.to_dict (asdict of the dataclass). -/
def AlertLevel.to_dict (l : AlertLevel) : JValue :=
  .obj [("days", .int l.days), ("color", .str l.color), ("label", .str l.label),
        ("notification", .bool l.notification), ("email", .bool l.email)]

/-- CategoryAlertSettings.from_dict, evaluating subexpressions in source
order: `data["levels"]`, `levels.get("critical")`, then the constructor
arguments enabled, info, warning, alert, critical. -/
def CategoryAlertSettings.from_dict (v : JValue) :
    Except PyErr CategoryAlertSettings :=
  eBind (pySubscript v "levels") fun levels =>
  eBind (pyGetOpt levels "critical") fun criticalData =>
  eBind (pySubscript v "enabled") fun enabledV =>
  eBind (match enabledV with
         | JValue.bool b => Except.ok b
         | _ => Except.error PyErr.illTyped) fun enabledB =>
  eBind (pySubscript levels "info") fun infoV =>
  eBind (AlertLevel.from_dict infoV) fun infoL =>
  eBind (pySubscript levels "warning") fun warnV =>
  eBind (AlertLevel.from_dict warnV) fun warnL =>
  eBind (pySubscript levels "alert") fun alertV =>
  eBind (AlertLevel.from_dict alertV) fun alertL =>
  match criticalData with
  | some cv =>
    if pyTruthy cv then
      eBind (AlertLevel.from_dict cv) fun cr =>
      Except.ok ⟨enabledB, infoL, warnL, alertL, some cr⟩
    else
      Except.ok ⟨enabledB, infoL, warnL, alertL, none⟩
  | none => Except.ok ⟨enabledB, infoL, warnL, alertL, none⟩

/-- CategoryAlertSettings.to_dict: the critical key is emitted only when the
critical tier is present (an AlertLevel instance is always truthy). -/
def CategoryAlertSettings.to_dict (cs : CategoryAlertSettings) : JValue :=
  .obj [("enabled", .bool cs.enabled),
        ("levels", .obj
          ([("info", cs.info.to_dict), ("warning", cs.warning.to_dict),
            ("alert", cs.alert.to_dict)] ++
           (match cs.critical with
            | some cr => [("critical", cr.to_dict)]
            | none => [])))]

/-- Content of the config file as seen by _load_settings: missing, present but
not parseable as JSON (json.load raises JSONDecodeError), or a parsed JSON
document. -/
inductive FileContent where
  | absent
  | invalidJson
  | json (v : JValue)

/-- The exception classes caught by _load_settings
(json.JSONDecodeError, KeyError, TypeError). -/
def caughtErr : PyErr → Bool
  | .jsonDecodeError => true
  | .keyError => true
  | .typeError => true
  | .attributeError => false
  | .illTyped => false

/-- One iteration of the category loop in _load_settings:
`if category in data.get("alert_settings", {})` then deserialize
`data["alert_settings"][category]`, else store a reference to the shared
class-level default object. -/
def loadCategory (asv : JValue) (c : Category) : Except PyErr Entry :=
  eBind (pyContains (catName c) asv) fun mem =>
  if mem then
    eBind (pySubscript asv (catName c)) fun cfg =>
    eBind (CategoryAlertSettings.from_dict cfg) fun cs =>
    Except.ok (Entry.owned cs)
  else
    Except.ok Entry.shared

/-- Body of the try-block of _load_settings after json.load succeeded. -/
def loadBody (v : JValue) : Except PyErr Manager :=
  eBind (pyGetDefault v "alert_settings" (JValue.obj [])) fun asv =>
  eBind (loadCategory asv .caces) fun e1 =>
  eBind (loadCategory asv .medical) fun e2 =>
  eBind (loadCategory asv .training) fun e3 =>
  eBind (loadCategory asv .contracts) fun e4 =>
  Except.ok ⟨e1, e2, e3, e4⟩

/-- AlertSettingsManager._load_settings: deepcopied defaults when the file is
absent or json.load fails; otherwise the loop body with the three caught
exception classes recovered to deepcopied defaults, anything else propagating
out of the constructor. -/
def load_settings (fc : FileContent) (w : World) : Except PyErr Manager :=
  match fc with
  | .absent => .ok (deepcopyDefaults w)
  | .invalidJson => .ok (deepcopyDefaults w)
  | .json v =>
    match loadBody v with
    | .ok m => .ok m
    | .error e => if caughtErr e then .ok (deepcopyDefaults w) else .error e

/-- The JSON document written by save_settings. -/
def save_json (w : World) (m : Manager) (lastUpdated : String) : JValue :=
  .obj [("version", .str "1.0"), ("last_updated", .str lastUpdated),
        ("alert_settings", .obj
          [("caces", (getCat w m .caces).to_dict),
           ("medical", (getCat w m .medical).to_dict),
           ("training", (getCat w m .training).to_dict),
           ("contracts", (getCat w m .contracts).to_dict)])]

/-- The guard `critical_days is not None and critical_days >= alert_days`. -/
def criticalInvalid (cd : Option Int) (alertDays : Int) : Bool :=
  match cd with
  | some c => decide (alertDays ≤ c)
  | none => false

/-- AlertSettingsManager.update_category.  `saveOk` is the outcome of the
final save_settings() disk write, supplied by the environment. -/
def update_category (w : World) (m : Manager) (category : String)
    (infoDays warningDays alertDays : Int) (criticalDays : Option Int)
    (enabled : Bool) (saveOk : Bool) : Bool × World × Manager :=
  match parseCategory category with
  | none => (false, w, m)
  | some c =>
    if ¬(0 < infoDays ∧ 0 < warningDays ∧ 0 < alertDays) then (false, w, m)
    else if ¬(warningDays < infoDays ∧ alertDays < warningDays) then (false, w, m)
    else if criticalInvalid criticalDays alertDays then (false, w, m)
    else
      let cs := getCat w m c
      let csNew : CategoryAlertSettings :=
        { enabled := enabled
          info := { cs.info with days := infoDays }
          warning := { cs.warning with days := warningDays }
          alert := { cs.alert with days := alertDays }
          critical :=
            match criticalDays, cs.critical with
            | some cd, some cr => some { cr with days := cd }
            | _, _ => cs.critical }
      let wm := setCat w m c csNew
      (saveOk, wm.1, wm.2)

/-- AlertSettingsManager.reset_to_defaults.  An empty category string is falsy
in Python, so it selects the reset-all branch; a single-category reset stores a
deep copy of the current class-level default object. -/
def reset_to_defaults (w : World) (m : Manager) (category : Option String)
    (saveOk : Bool) : Bool × World × Manager :=
  match category with
  | some s =>
    if s = "" then (saveOk, w, deepcopyDefaults w)
    else
      match parseCategory s with
      | none => (false, w, m)
      | some c => (saveOk, w, m.set c (.owned (w.get c)))
  | none => (saveOk, w, deepcopyDefaults w)

/-- Mutating operations the settings manager exposes after construction. -/
inductive Op where
  | upd (category : String) (i wa a : Int) (cd : Option Int) (en : Bool) (sOk : Bool)
  | rst (category : Option String) (sOk : Bool)

def step (st : World × Manager) (op : Op) : World × Manager :=
  match op with
  | .upd cat i wa a cd en sOk => (update_category st.1 st.2 cat i wa a cd en sOk).2
  | .rst cat sOk => (reset_to_defaults st.1 st.2 cat sOk).2

def run (st : World × Manager) (ops : List Op) : World × Manager :=
  ops.foldl step st

/-- Configured tiers of a category, most urgent first (the evaluation order of
get_alert_level). -/
def tiersOf (cs : CategoryAlertSettings) : List AlertLevel :=
  (match cs.critical with | some cr => [cr] | none => []) ++
  [cs.alert, cs.warning, cs.info]

/-- The ordering part of the documented invariant:
info.days > warning.days > alert.days > 0. -/
def ordered_inv (cs : CategoryAlertSettings) : Bool :=
  decide (0 < cs.alert.days) && decide (cs.alert.days < cs.warning.days) &&
  decide (cs.warning.days < cs.info.days)

/-- The full documented invariant, including critical.days < alert.days when a
critical tier is present. -/
def full_inv (cs : CategoryAlertSettings) : Bool :=
  ordered_inv cs &&
  (match cs.critical with
   | some cr => decide (cr.days < cs.alert.days)
   | none => true)

/-- Total extractor used only to state load results: the deserialized category
when from_dict succeeds, a fallback value otherwise. -/
def from_dict_or (v : JValue) (d : CategoryAlertSettings) : CategoryAlertSettings :=
  match CategoryAlertSettings.from_dict v with
  | .ok cs => cs
  | .error _ => d

/-- Expected settings slot for category c when loading from a file whose
alert_settings object has fields kvs and every present category deserializes. -/
def entry_of (kvs : List (String × JValue)) (c : Category) (w : World) : Entry :=
  match List.lookup (catName c) kvs with
  | some v => .owned (from_dict_or v (w.get c))
  | none => .shared

/-- A well-formed level dict as written in a config file. -/
def levelJson (d : Int) (col lab : String) (notif em : Bool) : JValue :=
  .obj [("days", .int d), ("color", .str col), ("label", .str lab),
        ("notification", .bool notif), ("email", .bool em)]

/-- A well-formed caces category dict with custom thresholds 77/66/55/11. -/
def cacesJson77 : JValue :=
  .obj [("enabled", .bool true),
        ("levels", .obj
          [("info", levelJson 77 "#FFFF00" "Info" false false),
           ("warning", levelJson 66 "#FFA500" "Warning" true false),
           ("alert", levelJson 55 "#FF0000" "Alert" true false),
           ("critical", levelJson 11 "#8B0000" "Critical" true true)])]

/-- A medical category dict missing the required alert level. -/
def medicalMissingAlert : JValue :=
  .obj [("enabled", .bool true),
        ("levels", .obj
          [("info", levelJson 90 "#FFFF00" "Info" false false),
           ("warning", levelJson 60 "#FFA500" "Warning" true false)])]

/-- Config file with one well-formed category and one category lacking a
required level. -/
def cfgMixed : JValue :=
  .obj [("alert_settings", .obj
          [("caces", cacesJson77), ("medical", medicalMissingAlert)])]

/-- Config file with a training category whose levels dict lacks the required
warning and alert levels. -/
def cfgTrainingPartial : JValue :=
  .obj [("alert_settings", .obj
          [("training", .obj
            [("enabled", .bool true),
             ("levels", .obj [("info", levelJson 60 "#FFFF00" "Info" false false)])])])]

/-- An undoable action as the manager observes it: an identity and the success
results its undo()/redo() methods report. -/
structure UAction where
  ident : Nat
  undo_ok : Bool
  redo_ok : Bool
deriving DecidableEq, Repr

/-- UndoManager state: stacks are most-recent-last, as Python lists with
append/pop at the end. -/
structure UM where
  undo_stack : List UAction
  redo_stack : List UAction
  max_history : Nat
deriving DecidableEq, Repr

/-- A freshly constructed UndoManager with the given max_history. -/
def initUM (k : Nat) : UM := ⟨[], [], k⟩

/-- UndoManager.record_action: append, clear the redo stack, evict the oldest
entry (index 0) when the cap is exceeded. -/
def UM.record_action (s : UM) (a : UAction) : UM :=
  let u1 := s.undo_stack ++ [a]
  let u2 := if s.max_history < u1.length then u1.drop 1 else u1
  ⟨u2, [], s.max_history⟩

/-- UndoManager.undo: pop the most recent action, run its undo(); on success
move it to the redo stack, on failure push it back. -/
def UM.undo (s : UM) : Option UAction × UM :=
  match s.undo_stack.getLast? with
  | none => (none, s)
  | some a =>
    if a.undo_ok then
      (some a, { s with undo_stack := s.undo_stack.dropLast,
                        redo_stack := s.redo_stack ++ [a] })
    else
      (none, { s with undo_stack := s.undo_stack.dropLast ++ [a] })

def UM.can_undo (s : UM) : Bool := decide (s.undo_stack.length > 0)

def UM.can_redo (s : UM) : Bool := decide (s.redo_stack.length > 0)

/-- Record a sequence of actions in order. -/
def record_all (s : UM) (acts : List UAction) : UM :=
  acts.foldl UM.record_action s

/-- A settings dictionary in which every slot aliases the class-level default
object: what _load_settings builds from a parseable file whose alert_settings
object mentions no category. -/
def mAllShared : Manager := ⟨.shared, .shared, .shared, .shared⟩

/-- Config file that exists, parses, and has an empty alert_settings object. -/
def cfgEmptyAS : JValue := .obj [("alert_settings", .obj [])]

/-- Invariant used for the reachability proof: the class-level defaults are
unmutated and every settings slot owns a copy satisfying the ordering
invariant.  It holds for a manager built with deepcopied defaults and is
preserved by update_category and reset_to_defaults. -/
def AllOwnedInv (st : World × Manager) : Prop :=
  st.1 = defaultWorld ∧
  ∀ c : Category, ∃ v, st.2.get c = .owned v ∧ ordered_inv v = true

/-- Concrete actions used in witnesses. -/
def actA : UAction := ⟨1, true, true⟩

def actB : UAction := ⟨2, true, true⟩

def actC : UAction := ⟨3, true, true⟩

def actFail : UAction := ⟨4, false, false⟩

/-- An undo-manager state whose most recent action fails to undo. -/
def umFail : UM := ⟨[actA, actFail], [actB], 10⟩

/-- The C10 scenario step 1: after constructing from a parseable config whose
alert_settings object omits every category (so every slot aliases the
class-level defaults), update caces to thresholds i/wa/a. -/
def c10Upd (i wa a : Int) (sOk : Bool) : Bool × World × Manager :=
  update_category defaultWorld mAllShared "caces" i wa a none true sOk

/-- The C10 scenario step 2: reset caces to "defaults" afterwards. -/
def c10Reset (i wa a : Int) (sOk : Bool) : Bool × World × Manager :=
  reset_to_defaults (c10Upd i wa a sOk).2.1 (c10Upd i wa a sOk).2.2
    (some "caces") sOk

theorem parseCategory_catName (c : Category) : parseCategory (catName c) = some c := by
  cases c <;> rfl

theorem World.get_set_same (w : World) (c : Category) (v : CategoryAlertSettings) :
    (w.set c v).get c = v := by
  cases c <;> rfl

theorem Manager.get_set (m : Manager) (c c2 : Category) (e : Entry) :
    (m.set c e).get c2 = if c2 = c then e else m.get c2 := by
  cases c <;> cases c2 <;> rfl

theorem getCat_setCat (w : World) (m : Manager) (c : Category)
    (v : CategoryAlertSettings) :
    getCat (setCat w m c v).1 (setCat w m c v).2 c = v := by
  unfold setCat getCat
  cases hm : m.get c with
  | shared => simp [hm, World.get_set_same]
  | owned x => simp [Manager.get_set]

/-- C1: for an enabled category whose settings satisfy the ordering invariant,
get_alert_level returns the configured tier (critical when present, else
alert, warning, info) whose days threshold is the smallest one that is still
greater than or equal to days_until, and returns none exactly when days_until
exceeds the info threshold. -/
theorem get_alert_level_min_threshold (cs : CategoryAlertSettings) (d : Int)
    (hen : cs.enabled = true)
    (h1 : cs.alert.days < cs.warning.days)
    (h2 : cs.warning.days < cs.info.days)
    (hcr : ∀ cr, cs.critical = some cr → cr.days < cs.alert.days) :
    (∀ l, get_alert_level cs d = some l →
       l ∈ tiersOf cs ∧ d ≤ l.days ∧
       ∀ l2 ∈ tiersOf cs, d ≤ l2.days → l.days ≤ l2.days) ∧
    (get_alert_level cs d = none ↔ cs.info.days < d) := by
  cases hc : cs.critical with
  | none =>
    constructor
    · intro l hl
      simp only [get_alert_level, hen, criticalApplies, hc, Bool.true_eq_false,
        if_false, Bool.false_eq_true] at hl
      simp only [tiersOf, hc, List.nil_append]
      split_ifs at hl with hA hB hC <;>
        (injection hl with hl2; subst hl2) <;>
        refine ⟨by simp, by omega, ?_⟩ <;>
        (intro l2 hm hd2; simp at hm; rcases hm with rfl | rfl | rfl <;> omega)
    · simp only [get_alert_level, hen, criticalApplies, hc, Bool.true_eq_false,
        if_false, Bool.false_eq_true]
      split_ifs with hA hB hC <;> simp <;> omega
  | some cr =>
    have hcrd : cr.days < cs.alert.days := hcr cr hc
    constructor
    · intro l hl
      simp only [get_alert_level, hen, criticalApplies, hc, Bool.true_eq_false,
        if_false, Bool.false_eq_true, decide_eq_true_eq] at hl
      simp only [tiersOf, hc, List.singleton_append]
      split_ifs at hl with hA hB hC hD <;>
        (injection hl with hl2; subst hl2) <;>
        refine ⟨by simp, by omega, ?_⟩ <;>
        (intro l2 hm hd2; simp at hm; rcases hm with rfl | rfl | rfl | rfl <;> omega)
    · simp only [get_alert_level, hen, criticalApplies, hc, Bool.true_eq_false,
        if_false, Bool.false_eq_true, decide_eq_true_eq]
      split_ifs with hA hB hC hD <;> simp <;> omega

/-- Witness for C1: caces defaults at days_until = 95, beyond the info
threshold of 90. -/
theorem get_alert_level_min_threshold_witness :
    get_alert_level defaultCaces 95 = none ↔ defaultCaces.info.days < 95 :=
  (get_alert_level_min_threshold defaultCaces 95 rfl (by decide) (by decide)
    (fun cr h => by
      simp only [defaultCaces, Option.some.injEq] at h
      subst h
      decide)).2

/-- C3: undo() returns none and leaves the state untouched on an empty undo
stack; otherwise it pops the most recent action, moving it to the redo stack
when its undo() succeeds, and restoring the state exactly (failed action back
on top, redo stack untouched) when its undo() fails. -/
theorem undo_failure_preserving (s : UM) :
    (s.undo_stack = [] → s.undo = (none, s)) ∧
    (∀ (rest : List UAction) (a : UAction), s.undo_stack = rest ++ [a] →
       (a.undo_ok = true →
          s.undo = (some a, { s with undo_stack := rest,
                                     redo_stack := s.redo_stack ++ [a] })) ∧
       (a.undo_ok = false → s.undo = (none, s))) := by
  constructor
  · intro h
    simp [UM.undo, h]
  · intro rest a h
    have hg : s.undo_stack.getLast? = some a := by
      rw [h]; exact List.getLast?_concat _
    have hd : s.undo_stack.dropLast = rest := by
      rw [h]; exact List.dropLast_concat
    constructor
    · intro hok
      simp [UM.undo, hg, hok, hd]
    · intro hbad
      have hu : s.undo = (none, { s with undo_stack := rest ++ [a] }) := by
        simp [UM.undo, hg, hbad, hd]
      rw [hu, ← h]

/-- Witness for C3: a concrete state whose top action reports failure is
returned to unchanged. -/
theorem undo_failure_preserving_witness : umFail.undo = (none, umFail) :=
  ((undo_failure_preserving umFail).2 [actA] actFail rfl).2 rfl

theorem record_all_redo (acts : List UAction) (s : UM) (h : s.redo_stack = []) :
    (record_all s acts).redo_stack = [] := by
  induction acts generalizing s with
  | nil => simpa [record_all] using h
  | cons a t ih =>
    show (record_all (s.record_action a) t).redo_stack = []
    exact ih _ rfl

theorem record_all_undo_stack (acts : List UAction) (s : UM)
    (h : s.undo_stack.length ≤ s.max_history) :
    (record_all s acts).undo_stack =
      (s.undo_stack ++ acts).drop
        (s.undo_stack.length + acts.length - s.max_history) := by
  induction acts generalizing s with
  | nil =>
    simp only [record_all, List.foldl_nil, List.append_nil, List.length_nil,
      Nat.add_zero, Nat.sub_eq_zero_of_le h, List.drop_zero]
  | cons a t ih =>
    by_cases hk : s.max_history < s.undo_stack.length + 1
    · have hlen : s.undo_stack.length = s.max_history := by omega
      have hs1 : (s.record_action a).undo_stack = (s.undo_stack ++ [a]).drop 1 := by
        simp [UM.record_action, hk]
      have hs1m : (s.record_action a).max_history = s.max_history := rfl
      have hs1len : (s.record_action a).undo_stack.length ≤ (s.record_action a).max_history := by
        rw [hs1, hs1m, List.length_drop, List.length_append, List.length_singleton]
        omega
      have hrec := ih (s.record_action a) hs1len
      rw [hs1, hs1m] at hrec
      show (record_all (s.record_action a) t).undo_stack = _
      rw [hrec]
      have hsplit : ((s.undo_stack ++ [a]) ++ t).drop 1 =
          (s.undo_stack ++ [a]).drop 1 ++ t :=
        List.drop_append_of_le_length (by simp)
      rw [← hsplit, List.drop_drop, List.append_assoc, List.singleton_append]
      congr 1
      simp only [List.length_drop, List.length_append, List.length_singleton,
        List.length_cons, List.length_nil] at hs1len ⊢
      omega
    · have hs1 : (s.record_action a).undo_stack = s.undo_stack ++ [a] := by
        simp [UM.record_action, hk]
      have hs1m : (s.record_action a).max_history = s.max_history := rfl
      have hs1len : (s.record_action a).undo_stack.length ≤ (s.record_action a).max_history := by
        rw [hs1, hs1m, List.length_append, List.length_singleton]
        omega
      have hrec := ih (s.record_action a) hs1len
      rw [hs1, hs1m] at hrec
      show (record_all (s.record_action a) t).undo_stack = _
      rw [hrec, List.append_assoc, List.singleton_append]
      congr 1
      simp only [List.length_append, List.length_singleton, List.length_cons,
        List.length_nil] at hs1len ⊢
      omega

/-- C4: record_action appends the action, clears the redo stack (so can_redo
is false immediately afterwards), and evicts exactly the oldest entry when the
cap is exceeded; consequently recording N actions into a fresh manager with
max_history = k < N retains exactly the k most recent in order. -/
theorem record_action_retention :
    (∀ (s : UM) (a : UAction),
       (s.record_action a).redo_stack = [] ∧
       (s.record_action a).can_redo = false ∧
       (s.record_action a).undo_stack =
         (if s.max_history < s.undo_stack.length + 1
          then (s.undo_stack ++ [a]).drop 1 else s.undo_stack ++ [a])) ∧
    (∀ (k : Nat) (acts : List UAction), k < acts.length →
       (record_all (initUM k) acts).undo_stack = acts.drop (acts.length - k) ∧
       (record_all (initUM k) acts).redo_stack = []) := by
  constructor
  · intro s a
    refine ⟨rfl, rfl, ?_⟩
    simp [UM.record_action]
  · intro k acts hk
    refine ⟨?_, record_all_redo acts (initUM k) rfl⟩
    have h := record_all_undo_stack acts (initUM k) (by simp [initUM])
    simpa [initUM] using h

/-- Witness for C4: three actions recorded with max_history = 2 leave exactly
the two most recent. -/
theorem record_action_retention_witness :
    (record_all (initUM 2) [actA, actB, actC]).undo_stack = [actB, actC] := by
  have h := (record_action_retention.2 2 [actA, actB, actC] (by decide)).1
  simpa using h

/-- C5: update_category returns False and leaves the whole state (class-level
defaults and every settings slot) untouched, with no save outcome observable,
whenever the category is unknown, a threshold is not strictly positive, the
strict descending order fails, or a supplied critical_days is not below
alert_days. -/
theorem update_category_rejects (w : World) (m : Manager) (category : String)
    (i wa a : Int) (cd : Option Int) (en sOk : Bool)
    (h : parseCategory category = none ∨
         ¬(0 < i ∧ 0 < wa ∧ 0 < a) ∨
         ¬(wa < i ∧ a < wa) ∨
         ∃ cdv, cd = some cdv ∧ a ≤ cdv) :
    update_category w m category i wa a cd en sOk = (false, w, m) := by
  cases hp : parseCategory category with
  | none => simp [update_category, hp]
  | some c =>
    simp only [update_category, hp]
    split_ifs with h1 h2 h3
    all_goals try rfl
    exfalso
    rcases h with h | h | h | ⟨cdv, hcd, hle⟩
    · rw [hp] at h; simp at h
    · exact h h1
    · exact h h2
    · subst hcd
      simp only [criticalInvalid, decide_eq_true_eq] at h3
      exact h3 hle

/-- Witness for C5: the spec's non-descending example 60/90/30 on caces is
rejected without touching the state. -/
theorem update_category_rejects_witness :
    update_category defaultWorld (deepcopyDefaults defaultWorld) "caces"
        60 90 30 none true true =
      (false, defaultWorld, deepcopyDefaults defaultWorld) :=
  update_category_rejects defaultWorld (deepcopyDefaults defaultWorld) "caces"
    60 90 30 none true true (Or.inr (Or.inr (Or.inl (by decide))))

/-- C9: on a category with no critical tier, update_category with a valid
critical_days argument succeeds (returning the persistence outcome), sets the
three thresholds and the enabled flag, and silently discards critical_days:
the category still has no critical tier. -/
theorem update_keeps_missing_critical (w : World) (m : Manager) (c : Category)
    (i wa a cdv : Int) (en sOk : Bool)
    (hnc : (getCat w m c).critical = none)
    (h0 : 0 < a) (h1 : a < wa) (h2 : wa < i) (h3 : cdv < a) :
    (update_category w m (catName c) i wa a (some cdv) en sOk).1 = sOk ∧
    getCat (update_category w m (catName c) i wa a (some cdv) en sOk).2.1
           (update_category w m (catName c) i wa a (some cdv) en sOk).2.2 c =
      { enabled := en
        info := { (getCat w m c).info with days := i }
        warning := { (getCat w m c).warning with days := wa }
        alert := { (getCat w m c).alert with days := a }
        critical := none } := by
  have hu : update_category w m (catName c) i wa a (some cdv) en sOk =
      (sOk, setCat w m c
        { enabled := en
          info := { (getCat w m c).info with days := i }
          warning := { (getCat w m c).warning with days := wa }
          alert := { (getCat w m c).alert with days := a }
          critical := none }) := by
    simp only [update_category, parseCategory_catName]
    rw [hnc]
    split_ifs with hA hB hC
    all_goals try (exfalso; simp only [criticalInvalid, decide_eq_true_eq] at *; omega)
    rfl
  constructor
  · rw [hu]
  · rw [hu]
    exact getCat_setCat w m c _

/-- Witness for C9: contracts defaults updated to 100/50/20 with
critical_days = 10: the call reports success and contracts still has no
critical tier. -/
theorem update_keeps_missing_critical_witness :
    (update_category defaultWorld (deepcopyDefaults defaultWorld)
        (catName .contracts) 100 50 20 (some 10) true true).1 = true ∧
    getCat (update_category defaultWorld (deepcopyDefaults defaultWorld)
             (catName .contracts) 100 50 20 (some 10) true true).2.1
           (update_category defaultWorld (deepcopyDefaults defaultWorld)
             (catName .contracts) 100 50 20 (some 10) true true).2.2
           .contracts =
      { enabled := true
        info := { (getCat defaultWorld (deepcopyDefaults defaultWorld)
                    .contracts).info with days := 100 }
        warning := { (getCat defaultWorld (deepcopyDefaults defaultWorld)
                       .contracts).warning with days := 50 }
        alert := { (getCat defaultWorld (deepcopyDefaults defaultWorld)
                     .contracts).alert with days := 20 }
        critical := none } :=
  update_keeps_missing_critical defaultWorld (deepcopyDefaults defaultWorld)
    .contracts 100 50 20 10 true true rfl (by decide) (by decide) (by decide)
    (by decide)

/-- C7: the code path contradicting the never-raise claim: a config file whose
content is the valid JSON document [1, 2, 3] makes _load_settings raise
AttributeError (data.get on a list), which is not among the caught exception
classes, so construction propagates it instead of falling back to defaults. -/
theorem construction_array_config_error :
    load_settings (.json (.arr [.int 1, .int 2, .int 3])) defaultWorld =
      .error .attributeError := rfl

/-- Counterexample for C6: from the default-constructed state, the accepted
call update_category("caces", 100, 50, 5) (critical_days omitted) leaves the
caces critical tier at 7 days while alert drops to 5, violating
critical.days < alert.days. -/
theorem critical_invariant_refuted :
    load_settings .absent defaultWorld = .ok (deepcopyDefaults defaultWorld) ∧
    (update_category defaultWorld (deepcopyDefaults defaultWorld) "caces"
        100 50 5 none true true).1 = true ∧
    full_inv (getCat
        (update_category defaultWorld (deepcopyDefaults defaultWorld) "caces"
          100 50 5 none true true).2.1
        (update_category defaultWorld (deepcopyDefaults defaultWorld) "caces"
          100 50 5 none true true).2.2 .caces) = false :=
  ⟨rfl, by decide, by decide⟩

theorem deepcopyDefaults_get (w : World) (c : Category) :
    (deepcopyDefaults w).get c = .owned (w.get c) := by
  cases c <;> rfl

theorem ordered_inv_defaultWorld (c : Category) :
    ordered_inv (defaultWorld.get c) = true := by
  cases c <;> decide

theorem step_preserves (st : World × Manager) (op : Op)
    (h : AllOwnedInv st) : AllOwnedInv (step st op) := by
  obtain ⟨hw, hown⟩ := h
  cases op with
  | upd cat i wa a cd en sOk =>
    show AllOwnedInv (update_category st.1 st.2 cat i wa a cd en sOk).2
    cases hp : parseCategory cat with
    | none =>
      simp only [update_category, hp]
      exact ⟨hw, hown⟩
    | some c =>
      simp only [update_category, hp]
      split_ifs with h1 h2 h3
      all_goals try exact ⟨hw, hown⟩
      obtain ⟨v, hv, hvo⟩ := hown c
      constructor
      · show (setCat st.1 st.2 c _).1 = defaultWorld
        simp only [setCat, hv]
        exact hw
      · intro c2
        show ∃ v2, (setCat st.1 st.2 c _).2.get c2 = .owned v2 ∧ ordered_inv v2 = true
        simp only [setCat, hv, Manager.get_set]
        by_cases hc2 : c2 = c
        · rw [if_pos hc2]
          refine ⟨_, rfl, ?_⟩
          simp only [ordered_inv, Bool.and_eq_true, decide_eq_true_eq]
          refine ⟨⟨?_, ?_⟩, ?_⟩ <;> omega
        · rw [if_neg hc2]
          exact hown c2
  | rst cat sOk =>
    show AllOwnedInv (reset_to_defaults st.1 st.2 cat sOk).2
    cases cat with
    | none =>
      refine ⟨hw, fun c => ⟨st.1.get c, deepcopyDefaults_get _ _, ?_⟩⟩
      rw [hw]
      exact ordered_inv_defaultWorld c
    | some s =>
      simp only [reset_to_defaults]
      split_ifs with hs
      · refine ⟨hw, fun c => ⟨st.1.get c, deepcopyDefaults_get _ _, ?_⟩⟩
        rw [hw]
        exact ordered_inv_defaultWorld c
      · cases hpc : parseCategory s with
        | none =>
          simp only [hpc]
          exact ⟨hw, hown⟩
        | some c =>
          simp only [hpc]
          refine ⟨hw, ?_⟩
          intro c2
          rw [Manager.get_set]
          by_cases hc2 : c2 = c
          · rw [if_pos hc2]
            refine ⟨st.1.get c, rfl, ?_⟩
            rw [hw]
            exact ordered_inv_defaultWorld c
          · rw [if_neg hc2]
            exact hown c2

theorem run_preserves (ops : List Op) (st : World × Manager)
    (h : AllOwnedInv st) : AllOwnedInv (run st ops) := by
  induction ops generalizing st with
  | nil => simpa [run] using h
  | cons op t ih =>
    show AllOwnedInv (run (step st op) t)
    exact ih _ (step_preserves st op h)

/-- C6 (amended): starting from a construction that fell back to the built-in
defaults (config file absent or not parseable), every state reachable through
update_category and reset_to_defaults keeps info.days > warning.days >
alert.days > 0 for all four categories.  The original claim's further clauses
fail: loading a parseable config file applies no validation, and
update_category without critical_days can leave critical.days >= alert.days
(see the counterexample). -/
theorem reachable_ordered_invariant :
    load_settings .absent defaultWorld = .ok (deepcopyDefaults defaultWorld) ∧
    load_settings .invalidJson defaultWorld = .ok (deepcopyDefaults defaultWorld) ∧
    ∀ (ops : List Op) (c : Category),
      ordered_inv
        (getCat (run (defaultWorld, deepcopyDefaults defaultWorld) ops).1
                (run (defaultWorld, deepcopyDefaults defaultWorld) ops).2 c) = true := by
  refine ⟨rfl, rfl, ?_⟩
  intro ops c
  have hinit : AllOwnedInv (defaultWorld, deepcopyDefaults defaultWorld) :=
    ⟨rfl, fun c2 => ⟨defaultWorld.get c2, deepcopyDefaults_get _ _,
      ordered_inv_defaultWorld c2⟩⟩
  obtain ⟨v, hv, hvo⟩ := (run_preserves ops _ hinit).2 c
  simp only [getCat, hv]
  exact hvo

/-- C10: constructed from an existing, parseable config file that omits a
category, the stored slot is the shared class-level default object itself: a
successful update_category("caces", i, wa, a) writes through to the class
default, so a later reset_to_defaults("caces") restores i/wa/a rather than the
built-in 90/60/30, and a fresh manager constructed with no config file also
observes i as the caces info default. -/
theorem shared_default_mutation (i wa a : Int) (sOk : Bool)
    (h0 : 0 < a) (h1 : a < wa) (h2 : wa < i) :
    load_settings (.json cfgEmptyAS) defaultWorld = .ok mAllShared ∧
    (c10Upd i wa a sOk).1 = sOk ∧
    ((c10Upd i wa a sOk).2.1).caces.info.days = i ∧
    (getCat (c10Reset i wa a sOk).2.1 (c10Reset i wa a sOk).2.2
       .caces).info.days = i ∧
    (getCat (c10Reset i wa a sOk).2.1 (c10Reset i wa a sOk).2.2
       .caces).warning.days = wa ∧
    (getCat (c10Reset i wa a sOk).2.1 (c10Reset i wa a sOk).2.2
       .caces).alert.days = a ∧
    load_settings .absent (c10Upd i wa a sOk).2.1 =
      .ok (deepcopyDefaults (c10Upd i wa a sOk).2.1) ∧
    (getCat (c10Upd i wa a sOk).2.1
       (deepcopyDefaults (c10Upd i wa a sOk).2.1) .caces).info.days = i := by
  have hp : parseCategory "caces" = some Category.caces := rfl
  have hu : update_category defaultWorld mAllShared "caces" i wa a none true sOk =
      (sOk, defaultWorld.set .caces
        { enabled := true
          info := { defaultCaces.info with days := i }
          warning := { defaultCaces.warning with days := wa }
          alert := { defaultCaces.alert with days := a }
          critical := defaultCaces.critical }, mAllShared) := by
    simp only [update_category, hp]
    split_ifs with hA hB hC
    all_goals try rfl
    all_goals first
      | exact absurd ⟨by omega, by omega, h0⟩ hA
      | exact absurd ⟨h2, h1⟩ hB
      | (simp only [criticalInvalid] at hC; exact Bool.noConfusion hC)
  refine ⟨rfl, ?_, ?_, ?_, ?_, ?_, rfl, ?_⟩ <;>
    simp only [c10Reset, c10Upd, hu] <;> rfl

/-- Witness for C10 at thresholds 77/44/11 with a successful save. -/
theorem shared_default_mutation_witness :
    load_settings (.json cfgEmptyAS) defaultWorld = .ok mAllShared ∧
    (c10Upd 77 44 11 true).1 = true ∧
    ((c10Upd 77 44 11 true).2.1).caces.info.days = 77 ∧
    (getCat (c10Reset 77 44 11 true).2.1 (c10Reset 77 44 11 true).2.2
       .caces).info.days = 77 ∧
    (getCat (c10Reset 77 44 11 true).2.1 (c10Reset 77 44 11 true).2.2
       .caces).warning.days = 44 ∧
    (getCat (c10Reset 77 44 11 true).2.1 (c10Reset 77 44 11 true).2.2
       .caces).alert.days = 11 ∧
    load_settings .absent (c10Upd 77 44 11 true).2.1 =
      .ok (deepcopyDefaults (c10Upd 77 44 11 true).2.1) ∧
    (getCat (c10Upd 77 44 11 true).2.1
       (deepcopyDefaults (c10Upd 77 44 11 true).2.1) .caces).info.days = 77 :=
  shared_default_mutation 77 44 11 true (by decide) (by decide) (by decide)

theorem eBind_ok {α β : Type} (a : α) (f : α → Except PyErr β) :
    eBind (.ok a) f = f a := rfl

theorem eBind_error {α β : Type} (e : PyErr) (f : α → Except PyErr β) :
    eBind (.error e) f = .error e := rfl

theorem loadCategory_ok (kvs : List (String × JValue)) (c : Category) (w : World)
    (h : ∀ v, List.lookup (catName c) kvs = some v →
         isOkE (CategoryAlertSettings.from_dict v) = true) :
    loadCategory (.obj kvs) c = .ok (entry_of kvs c w) := by
  have hpc : pyContains (catName c) (JValue.obj kvs) =
      .ok (List.lookup (catName c) kvs).isSome := rfl
  cases hl : List.lookup (catName c) kvs with
  | none =>
    show eBind (pyContains (catName c) (JValue.obj kvs)) _ = _
    rw [hpc, hl, eBind_ok]
    simp [entry_of, hl]
  | some v =>
    obtain ⟨cs, hcs⟩ : ∃ cs, CategoryAlertSettings.from_dict v = .ok cs := by
      cases hfd : CategoryAlertSettings.from_dict v with
      | ok cs => exact ⟨cs, rfl⟩
      | error e => exact absurd (h v hl) (by simp [hfd, isOkE])
    have hsub : pySubscript (JValue.obj kvs) (catName c) = .ok v := by
      simp [pySubscript, hl]
    show eBind (pyContains (catName c) (JValue.obj kvs)) _ = _
    rw [hpc, hl, eBind_ok]
    simp only [Option.isSome_some, if_true]
    rw [hsub, eBind_ok, hcs, eBind_ok]
    simp [entry_of, hl, from_dict_or, hcs]

/-- Counterexample for C2: in a config whose caces entry is well formed (info
77) and whose medical entry lacks the required alert level, the load falls
back to the complete built-in defaults: the loaded caces values are discarded
(info stays 90) rather than preserved, and no per-level fallback happens. -/
theorem load_per_level_fallback_refuted :
    load_settings (.json cfgMixed) defaultWorld = .ok (deepcopyDefaults defaultWorld) ∧
    CategoryAlertSettings.from_dict cacesJson77 =
      .ok ⟨true, ⟨77, "#FFFF00", "Info", false, false⟩,
           ⟨66, "#FFA500", "Warning", true, false⟩,
           ⟨55, "#FF0000", "Alert", true, false⟩,
           some ⟨11, "#8B0000", "Critical", true, true⟩⟩ ∧
    (deepcopyDefaults defaultWorld).caces = .owned defaultCaces ∧
    defaultCaces.info.days = 90 :=
  ⟨rfl, rfl, rfl, rfl⟩

/-- C2 (amended): when the config file parses as an object and every category
present under alert_settings deserializes, the merge is per category: a
present category is stored as its deserialized value and an absent category
aliases its class-level default.  But a present category that fails to
deserialize (e.g. one missing a required level) aborts the whole load: every
category, including well-formed ones, reverts to the built-in defaults; a
missing level never falls back individually. -/
theorem load_merge_per_category (w : World) (kvs : List (String × JValue))
    (h : ∀ c : Category, ∀ v, List.lookup (catName c) kvs = some v →
         isOkE (CategoryAlertSettings.from_dict v) = true) :
    load_settings (.json (.obj [("alert_settings", .obj kvs)])) w =
      .ok ⟨entry_of kvs .caces w, entry_of kvs .medical w,
           entry_of kvs .training w, entry_of kvs .contracts w⟩ ∧
    load_settings (.json cfgTrainingPartial) w = .ok (deepcopyDefaults w) := by
  constructor
  · have hlb : loadBody (JValue.obj [("alert_settings", JValue.obj kvs)]) =
        .ok ⟨entry_of kvs .caces w, entry_of kvs .medical w,
             entry_of kvs .training w, entry_of kvs .contracts w⟩ := by
      show eBind (pyGetDefault (JValue.obj [("alert_settings", JValue.obj kvs)])
        "alert_settings" (JValue.obj [])) _ = _
      rw [show pyGetDefault (JValue.obj [("alert_settings", JValue.obj kvs)])
            "alert_settings" (JValue.obj []) = .ok (JValue.obj kvs) from rfl,
          eBind_ok,
          loadCategory_ok kvs .caces w (h .caces), eBind_ok,
          loadCategory_ok kvs .medical w (h .medical), eBind_ok,
          loadCategory_ok kvs .training w (h .training), eBind_ok,
          loadCategory_ok kvs .contracts w (h .contracts), eBind_ok]
    simp [load_settings, hlb]
  · rfl

/-- Witness for C2: a config containing exactly one well-formed category
(caces, thresholds 77/66/55/11) loads that category and leaves the other three
aliasing their defaults; the second conjunct shows the whole-load fallback at
the concrete config whose training entry lacks required levels. -/
theorem load_merge_per_category_witness :
    load_settings (.json (.obj [("alert_settings",
        .obj [("caces", cacesJson77)])])) defaultWorld =
      .ok ⟨entry_of [("caces", cacesJson77)] .caces defaultWorld,
           entry_of [("caces", cacesJson77)] .medical defaultWorld,
           entry_of [("caces", cacesJson77)] .training defaultWorld,
           entry_of [("caces", cacesJson77)] .contracts defaultWorld⟩ ∧
    load_settings (.json cfgTrainingPartial) defaultWorld =
      .ok (deepcopyDefaults defaultWorld) :=
  load_merge_per_category defaultWorld [("caces", cacesJson77)] (by
    intro c v hv
    cases c
    case caces =>
      injection hv with hv2
      subst hv2
      rfl
    case medical => exact Option.noConfusion hv
    case training => exact Option.noConfusion hv
    case contracts => exact Option.noConfusion hv)

theorem alert_level_roundtrip (l : AlertLevel) :
    AlertLevel.from_dict l.to_dict = .ok l := by
  cases l
  rfl

theorem category_roundtrip (cs : CategoryAlertSettings) :
    CategoryAlertSettings.from_dict cs.to_dict = .ok cs := by
  obtain ⟨en, i, wa, al, cr⟩ := cs
  cases cr with
  | none => rfl
  | some crv => rfl

theorem loadCategory_to_dict (kvs : List (String × JValue)) (c : Category)
    (cs : CategoryAlertSettings)
    (hl : List.lookup (catName c) kvs = some cs.to_dict) :
    loadCategory (.obj kvs) c = .ok (.owned cs) := by
  have h := loadCategory_ok kvs c defaultWorld (fun v hv => by
    rw [hv] at hl
    injection hl with h2
    subst h2
    rw [category_roundtrip]
    rfl)
  rw [h]
  simp [entry_of, hl, from_dict_or, category_roundtrip]

/-- C8: serialize/deserialize is the identity: from_dict (to_dict s) = ok s
for every category value (thresholds, colors, labels, notification and email
flags, and presence or absence of the critical tier), and re-loading the exact
JSON document written by save_settings reproduces every category's saved
settings in a fresh manager. -/
theorem save_load_roundtrip :
    (∀ cs : CategoryAlertSettings,
       CategoryAlertSettings.from_dict cs.to_dict = .ok cs) ∧
    (∀ (w : World) (m : Manager) (ts : String) (w2 : World),
       load_settings (.json (save_json w m ts)) w2 =
         .ok ⟨.owned (getCat w m .caces), .owned (getCat w m .medical),
              .owned (getCat w m .training), .owned (getCat w m .contracts)⟩) := by
  refine ⟨category_roundtrip, ?_⟩
  intro w m ts w2
  have hlb : loadBody (save_json w m ts) =
      .ok ⟨.owned (getCat w m .caces), .owned (getCat w m .medical),
           .owned (getCat w m .training), .owned (getCat w m .contracts)⟩ := by
    show eBind (pyGetDefault (save_json w m ts) "alert_settings"
      (JValue.obj [])) _ = _
    rw [show pyGetDefault (save_json w m ts) "alert_settings" (JValue.obj []) =
          .ok (JValue.obj
            [("caces", (getCat w m .caces).to_dict),
             ("medical", (getCat w m .medical).to_dict),
             ("training", (getCat w m .training).to_dict),
             ("contracts", (getCat w m .contracts).to_dict)]) from rfl,
        eBind_ok,
        loadCategory_to_dict
          [("caces", (getCat w m .caces).to_dict),
           ("medical", (getCat w m .medical).to_dict),
           ("training", (getCat w m .training).to_dict),
           ("contracts", (getCat w m .contracts).to_dict)]
          .caces (getCat w m .caces) rfl, eBind_ok,
        loadCategory_to_dict
          [("caces", (getCat w m .caces).to_dict),
           ("medical", (getCat w m .medical).to_dict),
           ("training", (getCat w m .training).to_dict),
           ("contracts", (getCat w m .contracts).to_dict)]
          .medical (getCat w m .medical) rfl, eBind_ok,
        loadCategory_to_dict
          [("caces", (getCat w m .caces).to_dict),
           ("medical", (getCat w m .medical).to_dict),
           ("training", (getCat w m .training).to_dict),
           ("contracts", (getCat w m .contracts).to_dict)]
          .training (getCat w m .training) rfl, eBind_ok,
        loadCategory_to_dict
          [("caces", (getCat w m .caces).to_dict),
           ("medical", (getCat w m .medical).to_dict),
           ("training", (getCat w m .training).to_dict),
           ("contracts", (getCat w m .contracts).to_dict)]
          .contracts (getCat w m .contracts) rfl, eBind_ok]
  simp [load_settings, hlb]
